import Mathlib

/-!
Verification of the sqlproxy adapter (driver.go) against its specification.

The adapter wraps an underlying SQL driver and inserts two hook points:
a pre-prepare rewrite hook and a pre-execute observation hook.  We embed
the adapter shallowly: the underlying `sql.DB`, `sql.Stmt` and `sql.Rows`
objects are modelled as oracles (structures of response functions), and
every delegation to the underlying driver, as well as every hook
invocation, is recorded in an event trace so that ordering and payload
properties can be stated.
-/

namespace Sqlproxy

/-- One observable action of the adapter: a hook invocation or a delegation
to the proxied driver.  `hookQuery` records the invocation of the
`BeforeQueryHook`; `dbPrepare`, `dbExec` and `dbQuery` record the query text
respectively argument list handed to the underlying driver. -/
inductive Event (Val : Type) where
  | hookQuery (query : String) (args : List Val)
  | dbPrepare (query : String)
  | dbExec (args : List Val)
  | dbQuery (args : List Val)
deriving DecidableEq

/-- Model of the standard library `sql.Rows` the adapter wraps: the rows still
pending, the iteration error (`rows.Err()`) — `sql.Rows.Next()` returns
`false` not only on exhaustion but also when such an underlying error has
occurred, the error being visible only through `rows.Err()` — the behaviour
of `Scan` at the current head row (given the scan targets it returns the
written targets and an error), the response of `Columns()`, and the response
of `Close()`. -/
structure SqlRows (Val Err : Type) where
  pending : List (List Val)
  iterErr : Option Err
  scan : List Val → List Val → List Val × Option Err
  columnsResp : List String × Option Err
  closeResp : Option Err

/-- Model of a prepared `sql.Stmt` of the underlying driver: responses of its
`Exec`, `Query` and `Close` methods.  A `none` first component models a nil
result. -/
structure SqlStmt (Val Err Res : Type) where
  execResp : List Val → Option Res × Option Err
  queryResp : List Val → Option (SqlRows Val Err) × Option Err
  closeResp : Option Err

/-- Model of the underlying `sql.DB`: responses of its `Prepare` and `Close`
methods.  `Prepare` may return a nil statement together with an error. -/
structure SqlDB (Val Err Res : Type) where
  prepareResp : String → Option (SqlStmt Val Err Res) × Option Err
  closeResp : Option Err

/-- The adapter configuration (struct `Driver` in driver.go): the name of the
proxied driver and the two optional hooks.  `BeforePrepareHook` returns the
(possibly rewritten) query string together with an optional error, exactly as
the Go hook signature `func(query string) (string, error)` does. -/
structure Driver (Val Err : Type) where
  ProxiedDriverName : String
  BeforePrepareHook : Option (String → String × Option Err)
  BeforeQueryHook : Option (String → List Val → Unit)

/-- struct `connection` in driver.go: the adapter configuration plus the
handle of the underlying database. -/
structure Connection (Val Err Res : Type) where
  driver : Driver Val Err
  db : SqlDB Val Err Res

/-- struct `statement` in driver.go: the adapter configuration, the underlying
prepared-statement handle (possibly nil), and the retained query text. -/
structure Statement (Val Err Res : Type) where
  driver : Driver Val Err
  stmt : Option (SqlStmt Val Err Res)
  query : String

/-- struct `resultRows` in driver.go: wraps the (possibly nil) underlying row
cursor. -/
structure ResultRows (Val Err : Type) where
  rows : Option (SqlRows Val Err)

/-- The value of the Go `error` returned by `resultRows.Next`: `ok` models a
nil error, `eof` models `io.EOF`, `err e` models the error `e` forwarded from
`Scan`. -/
inductive NextOutcome (Err : Type) where
  | ok
  | eof
  | err (e : Err)
deriving DecidableEq

/-- Outcome of `resultRows.Columns`, which has no error return and panics on
an underlying error. -/
inductive ColumnsOutcome (Err : Type) where
  | ok (cols : List String)
  | panicked (e : Err)
deriving DecidableEq

variable {Val Err Res : Type}

/-- `castValues` in driver.go: copies a `[]driver.Value` element by element
into a fresh `[]interface` slice. -/
def castValues (values : List Val) : List Val :=
  values.map (fun arg => arg)

/-- `Driver.Open`: delegates to `sql.Open` (modelled by the oracle `sqlOpen`)
with the proxied driver's name; on error returns the error, otherwise wraps
the database handle in a `connection`. -/
def Driver.Open (d : Driver Val Err)
    (sqlOpen : String → String → Except Err (SqlDB Val Err Res))
    (dataSource : String) : Except Err (Connection Val Err Res) :=
  match sqlOpen d.ProxiedDriverName dataSource with
  | .error e => .error e
  | .ok db => .ok { driver := d, db := db }

/-- `connection.Prepare`: runs the pre-prepare hook when configured (aborting
with its error before touching the underlying database), then delegates to
the underlying `Prepare` with the final query text and returns a statement
wrapper retaining that text alongside the underlying error.  The second
component is the trace of delegations performed. -/
def Connection.Prepare (c : Connection Val Err Res) (query : String) :
    (Option (Statement Val Err Res) × Option Err) × List (Event Val) :=
  match c.driver.BeforePrepareHook with
  | some hook =>
      match hook query with
      | (_, some e) => ((none, some e), [])
      | (q2, none) =>
          let res := c.db.prepareResp q2
          ((some { driver := c.driver, stmt := res.1, query := q2 }, res.2),
            [Event.dbPrepare q2])
  | none =>
      let res := c.db.prepareResp query
      ((some { driver := c.driver, stmt := res.1, query := query }, res.2),
        [Event.dbPrepare query])

/-- `connection.Close`: forwards to the underlying database's `Close`. -/
def Connection.Close (c : Connection Val Err Res) : Option Err :=
  c.db.closeResp

/-- `Driver.execBeforeQueryHook`: invokes `BeforeQueryHook` when configured
(observation only); the returned trace records the invocation. -/
def Driver.execBeforeQueryHook (d : Driver Val Err) (query : String)
    (args : List Val) : List (Event Val) :=
  match d.BeforeQueryHook with
  | some hook =>
      let _ := hook query args
      [Event.hookQuery query args]
  | none => []

/-- `statement.NumInput`: the public API of `sql.Stmt` does not expose the
placeholder count, so the adapter always answers -1. -/
def Statement.NumInput (s : Statement Val Err Res) : Int :=
  let _ := s; -1

/-- `statement.Exec`: copies the values, runs the pre-execute hook point with
the retained query text, then delegates to the underlying statement's `Exec`.
Returns the trace and, when the underlying handle is non-nil, its result and
error verbatim (a `none` second component models the nil-pointer panic Go
would raise on a nil handle). -/
def Statement.Exec (s : Statement Val Err Res) (values : List Val) :
    List (Event Val) × Option (Option Res × Option Err) :=
  let args := castValues values
  let hookEvents := s.driver.execBeforeQueryHook s.query args
  match s.stmt with
  | none => (hookEvents, none)
  | some st => (hookEvents ++ [Event.dbExec args], some (st.execResp args))

/-- `statement.Query`: same hook-then-delegate pattern as `Exec`, wrapping the
returned cursor in `resultRows`. -/
def Statement.Query (s : Statement Val Err Res) (values : List Val) :
    List (Event Val) × Option (ResultRows Val Err × Option Err) :=
  let args := castValues values
  let hookEvents := s.driver.execBeforeQueryHook s.query args
  match s.stmt with
  | none => (hookEvents, none)
  | some st =>
      let res := st.queryResp args
      (hookEvents ++ [Event.dbQuery args], some ({ rows := res.1 }, res.2))

/-- `statement.Close`: forwards to the underlying statement's `Close` (`none`
models the panic on a nil handle). -/
def Statement.Close (s : Statement Val Err Res) : Option (Option Err) :=
  s.stmt.map (fun st => st.closeResp)

/-- `resultRows.Columns`: forwards to the underlying cursor's `Columns` and
panics when it reports an error (the `driver.Rows` interface offers no error
return).  `none` models the panic on a nil cursor. -/
def ResultRows.Columns (r : ResultRows Val Err) : Option (ColumnsOutcome Err) :=
  r.rows.map (fun rows =>
    match rows.columnsResp with
    | (_, some e) => ColumnsOutcome.panicked e
    | (result, none) => ColumnsOutcome.ok result)

/-- `resultRows.Close`: forwards to the underlying cursor's `Close`. -/
def ResultRows.Close (r : ResultRows Val Err) : Option (Option Err) :=
  r.rows.map (fun rows => rows.closeResp)

/-- `resultRows.Next`: when the underlying `rows.Next()` reports a row
(no iteration error has occurred and rows remain), advances the cursor and
calls `Scan` on `castValues dest`, i.e. on by-value copies of the
destination buffer's elements; the written copies are discarded, so the
destination buffer (the third component of the result) is returned as it
came in.  Whenever `rows.Next()` reports `false` — on exhaustion, but also
when an underlying iteration error has occurred — the adapter returns
`io.EOF` without consulting `rows.Err()`, so any iteration error is
swallowed into end-of-data.  `none` models the panic on a nil cursor. -/
def ResultRows.Next (r : ResultRows Val Err) (dest : List Val) :
    Option (NextOutcome Err × ResultRows Val Err × List Val) :=
  match r.rows with
  | none => none
  | some rows =>
      match rows.iterErr, rows.pending with
      | some _, _ => some (.eof, r, dest)
      | none, [] => some (.eof, r, dest)
      | none, row :: rest =>
          let targets := castValues dest
          let scanned := rows.scan row targets
          some
            (match scanned.2 with
              | some e => .err e
              | none => .ok,
              { rows := some { rows with pending := rest } },
              dest)

/-- Preparing and then executing directly against the underlying driver,
written from the specification's round-trip wording: prepare the query on
the underlying database, then run the prepared statement's `Exec` with the
argument values; each underlying error is the caller's error. -/
def directPrepareExec (db : SqlDB Val Err Res) (query : String)
    (values : List Val) : Option (Option Res × Option Err) × Option Err :=
  match db.prepareResp query with
  | (none, perr) => (none, perr)
  | (some st, perr) => (some (st.execResp values), perr)

/-- Direct prepare-then-query against the underlying driver, written from the
specification's round-trip wording. -/
def directPrepareQuery (db : SqlDB Val Err Res) (query : String)
    (values : List Val) :
    Option (Option (SqlRows Val Err) × Option Err) × Option Err :=
  match db.prepareResp query with
  | (none, perr) => (none, perr)
  | (some st, perr) => (some (st.queryResp values), perr)

/-- The same prepare-then-execute pipeline going through the adapter: open a
connection around `db`, prepare through `connection.Prepare`, execute through
`statement.Exec`; the cursor wrapper is unwrapped for comparison. -/
def adapterPrepareExec (d : Driver Val Err) (db : SqlDB Val Err Res)
    (query : String) (values : List Val) :
    Option (Option Res × Option Err) × Option Err :=
  let prep := Connection.Prepare { driver := d, db := db } query
  match prep.1.1 with
  | none => (none, prep.1.2)
  | some s => ((Statement.Exec s values).2, prep.1.2)

/-- The prepare-then-query pipeline going through the adapter, with the
`resultRows` wrapper unwrapped for comparison with the direct pipeline. -/
def adapterPrepareQuery (d : Driver Val Err) (db : SqlDB Val Err Res)
    (query : String) (values : List Val) :
    Option (Option (SqlRows Val Err) × Option Err) × Option Err :=
  let prep := Connection.Prepare { driver := d, db := db } query
  match prep.1.1 with
  | none => (none, prep.1.2)
  | some s =>
      ((Statement.Query s values).2.map (fun p => (p.1.rows, p.2)), prep.1.2)

/-! Concrete fixtures used to exercise the model on closed inputs. -/

/-- A pre-prepare hook that appends `2` to the query text and succeeds. -/
def rewriteHook : String → String × Option String := fun q => (q ++ "2", none)

/-- A pre-prepare hook that rejects every query. -/
def rejectHook : String → String × Option String := fun q => (q, some "rejected")

/-- An underlying cursor holding one pending row `[42]`, whose `Scan` writes
the row into the given targets and succeeds. -/
def testRows : SqlRows Int String :=
  { pending := [[42]]
    iterErr := none
    scan := fun row _ => (row, none)
    columnsResp := (["x"], none)
    closeResp := none }

/-- An underlying prepared statement that succeeds on every operation. -/
def testStmt : SqlStmt Int String Unit :=
  { execResp := fun _ => (some (), none)
    queryResp := fun _ => (some testRows, none)
    closeResp := none }

/-- An underlying database whose `Prepare` always succeeds with `testStmt`. -/
def testDB : SqlDB Int String Unit :=
  { prepareResp := fun _ => (some testStmt, none)
    closeResp := none }

/-- An underlying database whose `Prepare` always fails with a nil statement. -/
def failPrepDB : SqlDB Int String Unit :=
  { prepareResp := fun _ => (none, some "prepare failed")
    closeResp := none }

/-- Adapter configuration with both hooks set. -/
def hookedDriver : Driver Int String :=
  { ProxiedDriverName := "postgres"
    BeforePrepareHook := some rewriteHook
    BeforeQueryHook := some (fun _ _ => ()) }

/-- Adapter configuration with no hooks. -/
def plainDriver : Driver Int String :=
  { ProxiedDriverName := "postgres"
    BeforePrepareHook := none
    BeforeQueryHook := none }

/-- Adapter configuration whose pre-prepare hook rejects every query. -/
def rejectDriver : Driver Int String :=
  { ProxiedDriverName := "postgres"
    BeforePrepareHook := some rejectHook
    BeforeQueryHook := none }

/-- A connection of the hooked adapter over the succeeding database. -/
def hookedConn : Connection Int String Unit :=
  { driver := hookedDriver, db := testDB }

/-- A connection of the rejecting adapter over the succeeding database. -/
def rejectConn : Connection Int String Unit :=
  { driver := rejectDriver, db := testDB }

/-- A connection of the hook-free adapter over the failing database. -/
def plainFailConn : Connection Int String Unit :=
  { driver := plainDriver, db := failPrepDB }

/-- A connection of the hooked adapter over the failing database. -/
def hookedFailConn : Connection Int String Unit :=
  { driver := hookedDriver, db := failPrepDB }

/-- A connection of the hook-free adapter over the succeeding database. -/
def plainConn : Connection Int String Unit :=
  { driver := plainDriver, db := testDB }

/-- An adapter statement wrapping `testStmt` with both hooks configured. -/
def testStatement : Statement Int String Unit :=
  { driver := hookedDriver, stmt := some testStmt, query := "SELECT 12" }

/-- A model of `sql.Open` that fails for every driver name and data source. -/
def sqlOpenFail : String → String → Except String (SqlDB Int String Unit) :=
  fun _ _ => .error "open failed"

/-- An underlying prepared statement whose exec, query and close all fail. -/
def failingStmt : SqlStmt Int String Unit :=
  { execResp := fun _ => (none, some "exec failed")
    queryResp := fun _ => (none, some "query failed")
    closeResp := some "close failed" }

/-- An adapter statement wrapping `failingStmt`, with no hooks configured. -/
def failingStatement : Statement Int String Unit :=
  { driver := plainDriver, stmt := some failingStmt, query := "UPDATE t" }

/-- An underlying cursor with one pending row whose `Scan` fails. -/
def scanErrRows : SqlRows Int String :=
  { pending := [[7]]
    iterErr := none
    scan := fun _ targets => (targets, some "scan failed")
    columnsResp := (["x"], none)
    closeResp := some "rows close failed" }

/-- An underlying cursor whose `Columns` reports an error. -/
def colErrRows : SqlRows Int String :=
  { pending := []
    iterErr := none
    scan := fun _ targets => (targets, none)
    columnsResp := (["x"], some "columns failed")
    closeResp := none }

/-- An underlying cursor on which an iteration error has occurred while rows
remain: its `Next()` reports `false`, the error being held in `rows.Err()`. -/
def iterErrRows : SqlRows Int String :=
  { pending := [[9]]
    iterErr := some "connection lost"
    scan := fun _ targets => (targets, none)
    columnsResp := (["x"], none)
    closeResp := none }

/-- Copying the argument list element by element leaves it equal to itself. -/
theorem castValues_eq (values : List Val) : castValues values = values := by
  simp [castValues]

/-- C1: when a pre-prepare hook is configured and rewrites the query without
error, the underlying driver's prepare receives exactly the rewritten text
(the delegation trace is the single prepare event carrying the rewritten
text, so the original text never reaches the underlying driver), and the
returned statement wrapper retains the rewritten text for later hook
invocations. -/
theorem prepare_forwards_rewritten_text
    (c : Connection Val Err Res) (query q2 : String)
    (hook : String → String × Option Err)
    (hhook : c.driver.BeforePrepareHook = some hook)
    (hres : hook query = (q2, none)) :
    (Connection.Prepare c query).2 = [Event.dbPrepare q2] ∧
    (Connection.Prepare c query).1.1.map Statement.query = some q2 := by
  simp [Connection.Prepare, hhook, hres]

/-- Witness for C1 at a concrete connection: the hook rewrites `SELECT 1` to
`SELECT 12`, the underlying prepare sees only `SELECT 12`, and the statement
retains `SELECT 12`. -/
theorem prepare_forwards_rewritten_text_witness :
    (Connection.Prepare hookedConn "SELECT 1").2 = [Event.dbPrepare "SELECT 12"] ∧
    (Connection.Prepare hookedConn "SELECT 1").1.1.map Statement.query =
      some "SELECT 12" :=
  prepare_forwards_rewritten_text hookedConn "SELECT 1" "SELECT 12" rewriteHook
    rfl rfl

/-- C2: when the configured pre-prepare hook returns an error, that error is
propagated to the caller (with no statement) and the delegation trace is
empty, so the underlying driver's prepare is never invoked. -/
theorem prepare_hook_error_skips_db
    (c : Connection Val Err Res) (query q2 : String)
    (hook : String → String × Option Err) (e : Err)
    (hhook : c.driver.BeforePrepareHook = some hook)
    (hres : hook query = (q2, some e)) :
    Connection.Prepare c query = ((none, some e), []) := by
  simp [Connection.Prepare, hhook, hres]

/-- Witness for C2 at a concrete connection whose hook rejects every query. -/
theorem prepare_hook_error_skips_db_witness :
    Connection.Prepare rejectConn "DROP TABLE t" = ((none, some "rejected"), []) :=
  prepare_hook_error_skips_db rejectConn "DROP TABLE t" "DROP TABLE t"
    rejectHook "rejected" rfl rfl

/-- C10: `NumInput` answers -1 for every statement, regardless of its query
text, so the driver layer cannot validate the argument count before
execution. -/
theorem numInput_always_minus_one (s : Statement Val Err Res) :
    Statement.NumInput s = -1 := rfl

/-- Witness for C10 at a concrete statement. -/
theorem numInput_always_minus_one_witness :
    Statement.NumInput testStatement = -1 :=
  numInput_always_minus_one testStatement

/-- C3: on every execute and on every query of a statement whose adapter has a
pre-execute hook configured, the delegation trace is exactly one hook
invocation carrying the statement's retained query text and the caller's
argument values element for element, followed by exactly one delegation to
the underlying driver with those same values. -/
theorem query_hook_called_once_before_db
    (s : Statement Val Err Res) (values : List Val)
    (hk : String → List Val → Unit) (st : SqlStmt Val Err Res)
    (hhook : s.driver.BeforeQueryHook = some hk)
    (hstmt : s.stmt = some st) :
    (Statement.Exec s values).1 =
      [Event.hookQuery s.query values, Event.dbExec values] ∧
    (Statement.Query s values).1 =
      [Event.hookQuery s.query values, Event.dbQuery values] := by
  simp [Statement.Exec, Statement.Query, Driver.execBeforeQueryHook, hhook,
    hstmt, castValues_eq]

/-- Witness for C3 at a concrete statement and arguments `[5, 1]`. -/
theorem query_hook_called_once_before_db_witness :
    (Statement.Exec testStatement [5, 1]).1 =
      [Event.hookQuery "SELECT 12" [5, 1], Event.dbExec [5, 1]] ∧
    (Statement.Query testStatement [5, 1]).1 =
      [Event.hookQuery "SELECT 12" [5, 1], Event.dbQuery [5, 1]] :=
  query_hook_called_once_before_db testStatement [5, 1] (fun _ _ => ())
    testStmt rfl rfl

/-- C4: the adapter forwards argument values to the underlying driver
unmutated (the copy made by `castValues` equals the caller's list, and the
delegated exec/query event carries exactly the caller's values), every
delegation to the underlying exec/query is preceded by the pre-execute hook
invocation point, and the query text delegated by prepare is the original
text when no pre-prepare hook is configured and the hook's returned text
otherwise. -/
theorem adapter_never_mutates_and_hooks_first
    (s : Statement Val Err Res) (values : List Val) (st : SqlStmt Val Err Res)
    (hstmt : s.stmt = some st)
    (c1 : Connection Val Err Res) (query1 : String)
    (h1 : c1.driver.BeforePrepareHook = none)
    (c2 : Connection Val Err Res) (query2 q2 : String)
    (hook : String → String × Option Err)
    (h2 : c2.driver.BeforePrepareHook = some hook)
    (hr2 : hook query2 = (q2, none)) :
    castValues values = values ∧
    (Statement.Exec s values).1 =
      Driver.execBeforeQueryHook s.driver s.query values ++ [Event.dbExec values] ∧
    (Statement.Query s values).1 =
      Driver.execBeforeQueryHook s.driver s.query values ++ [Event.dbQuery values] ∧
    (Connection.Prepare c1 query1).2 = [Event.dbPrepare query1] ∧
    (Connection.Prepare c2 query2).2 = [Event.dbPrepare q2] := by
  refine ⟨castValues_eq values, ?_, ?_, ?_, ?_⟩
  · simp [Statement.Exec, hstmt, castValues_eq]
  · simp [Statement.Query, hstmt, castValues_eq]
  · simp [Connection.Prepare, h1]
  · simp [Connection.Prepare, h2, hr2]

/-- Witness for C4 at concrete statements and connections. -/
theorem adapter_never_mutates_and_hooks_first_witness :
    castValues ([5, 1] : List Int) = [5, 1] ∧
    (Statement.Exec testStatement [5, 1]).1 =
      Driver.execBeforeQueryHook hookedDriver "SELECT 12" [5, 1] ++
        [Event.dbExec [5, 1]] ∧
    (Statement.Query testStatement [5, 1]).1 =
      Driver.execBeforeQueryHook hookedDriver "SELECT 12" [5, 1] ++
        [Event.dbQuery [5, 1]] ∧
    (Connection.Prepare plainConn "SELECT 9").2 = [Event.dbPrepare "SELECT 9"] ∧
    (Connection.Prepare hookedConn "SELECT 1").2 = [Event.dbPrepare "SELECT 12"] :=
  adapter_never_mutates_and_hooks_first testStatement [5, 1] testStmt rfl
    plainConn "SELECT 9" rfl hookedConn "SELECT 1" "SELECT 12" rewriteHook
    rfl rfl

/-- C8: when the pre-prepare hook is absent (first conjunct) or succeeds
(second conjunct) but the underlying prepare fails with a nil statement
handle, the adapter still returns a statement wrapper — carrying the nil
underlying handle and the final query text — together with the unchanged
error. -/
theorem prepare_db_error_keeps_wrapper
    (c1 : Connection Val Err Res) (q1 : String) (e1 : Err)
    (h1 : c1.driver.BeforePrepareHook = none)
    (hdb1 : c1.db.prepareResp q1 = (none, some e1))
    (c2 : Connection Val Err Res) (q2 q2' : String)
    (hook : String → String × Option Err) (e2 : Err)
    (h2 : c2.driver.BeforePrepareHook = some hook)
    (hr2 : hook q2 = (q2', none))
    (hdb2 : c2.db.prepareResp q2' = (none, some e2)) :
    (Connection.Prepare c1 q1).1 =
      (some { driver := c1.driver, stmt := none, query := q1 }, some e1) ∧
    (Connection.Prepare c2 q2).1 =
      (some { driver := c2.driver, stmt := none, query := q2' }, some e2) := by
  constructor
  · simp [Connection.Prepare, h1, hdb1]
  · simp [Connection.Prepare, h2, hr2, hdb2]

/-- Witness for C8 at connections over the failing database. -/
theorem prepare_db_error_keeps_wrapper_witness :
    (Connection.Prepare plainFailConn "SELECT 1").1 =
      (some { driver := plainDriver, stmt := none, query := "SELECT 1" },
        some "prepare failed") ∧
    (Connection.Prepare hookedFailConn "SELECT 1").1 =
      (some { driver := hookedDriver, stmt := none, query := "SELECT 12" },
        some "prepare failed") :=
  prepare_db_error_keeps_wrapper plainFailConn "SELECT 1" "prepare failed" rfl
    rfl hookedFailConn "SELECT 1" "SELECT 12" rewriteHook "prepare failed"
    rfl rfl rfl

/-- C9: when a row is available, `Next` leaves the caller-supplied destination
buffer unchanged: `Scan` receives the by-value copies made by `castValues`,
so nothing is written back into the destination. -/
theorem next_leaves_dest_unchanged
    (r : SqlRows Val Err) (row : List Val) (rest : List (List Val))
    (dest : List Val) (hp : r.pending = row :: rest) :
    (ResultRows.Next { rows := some r } dest).map (fun t => t.2.2) = some dest := by
  cases hi : r.iterErr <;> simp [ResultRows.Next, hp, hi]

/-- Witness for C9: a row `[42]` is available and scanning succeeds, yet the
destination buffer `[0]` comes back unchanged. -/
theorem next_leaves_dest_unchanged_witness :
    (ResultRows.Next { rows := some testRows } [0]).map (fun t => t.2.2) =
      some [0] :=
  next_leaves_dest_unchanged testRows [42] [] [0] rfl

/-- C7: with no hooks configured, preparing and then executing (respectively
querying) through the adapter yields exactly the same results and errors as
preparing and executing directly against the underlying driver. -/
theorem no_hooks_round_trip
    (d : Driver Val Err) (db : SqlDB Val Err Res) (query : String)
    (values : List Val)
    (hprep : d.BeforePrepareHook = none) (hquery : d.BeforeQueryHook = none) :
    adapterPrepareExec d db query values = directPrepareExec db query values ∧
    adapterPrepareQuery d db query values = directPrepareQuery db query values := by
  rcases hdb : db.prepareResp query with ⟨stOpt, perr⟩
  cases stOpt <;>
    constructor <;>
      simp [adapterPrepareExec, adapterPrepareQuery, directPrepareExec,
        directPrepareQuery, Connection.Prepare, Statement.Exec,
        Statement.Query, Driver.execBeforeQueryHook, hprep, hquery, hdb,
        castValues_eq]

/-- Witness for C7 at the hook-free adapter over the succeeding database. -/
theorem no_hooks_round_trip_witness :
    adapterPrepareExec plainDriver testDB "SELECT 1" [5] =
      directPrepareExec testDB "SELECT 1" [5] ∧
    adapterPrepareQuery plainDriver testDB "SELECT 1" [5] =
      directPrepareQuery testDB "SELECT 1" [5] :=
  no_hooks_round_trip plainDriver testDB "SELECT 1" [5] rfl rfl

/-- C5 counterexample: at a cursor whose underlying `Columns` reports an
error, the adapter's column retrieval panics with that error instead of
returning it, so not every cursor-operation error is returned to the
caller. -/
theorem columns_error_panics_counterexample :
    ResultRows.Columns { rows := some colErrRows } =
      some (ColumnsOutcome.panicked "columns failed") := rfl

/-- C5 (amended): every error of the underlying driver or of a hook is
propagated to the caller unchanged — for open, prepare (hook error and
underlying error), execute, query, the three closes and row scanning — with
two exceptions at the cursor: column retrieval, whose interface has no error
return, panics with the unchanged underlying error; and an underlying
iteration error that makes the cursor's `Next()` report no row is swallowed,
`resultRows.Next` answering `io.EOF` without consulting `rows.Err()`. -/
theorem errors_propagated_verbatim
    (d : Driver Val Err)
    (sqlOpen : String → String → Except Err (SqlDB Val Err Res))
    (ds : String) (e0 : Err)
    (hopen : sqlOpen d.ProxiedDriverName ds = .error e0)
    (c1 : Connection Val Err Res) (q1 q1' : String)
    (hk1 : String → String × Option Err) (e1 : Err)
    (hc1 : c1.driver.BeforePrepareHook = some hk1)
    (hr1 : hk1 q1 = (q1', some e1))
    (c2 : Connection Val Err Res) (q2 : String) (e2 : Err)
    (st2 : Option (SqlStmt Val Err Res))
    (hc2 : c2.driver.BeforePrepareHook = none)
    (hp2 : c2.db.prepareResp q2 = (st2, some e2))
    (s3 : Statement Val Err Res) (st3 : SqlStmt Val Err Res) (v3 : List Val)
    (r3 : Option Res) (e3 : Err)
    (hs3 : s3.stmt = some st3) (he3 : st3.execResp v3 = (r3, some e3))
    (s4 : Statement Val Err Res) (st4 : SqlStmt Val Err Res) (v4 : List Val)
    (rw4 : Option (SqlRows Val Err)) (e4 : Err)
    (hs4 : s4.stmt = some st4) (he4 : st4.queryResp v4 = (rw4, some e4))
    (c6 : Connection Val Err Res)
    (r6 : SqlRows Val Err) (row6 : List Val) (rest6 : List (List Val))
    (dest6 w6 : List Val) (e6 : Err)
    (hp6 : r6.pending = row6 :: rest6) (hi6 : r6.iterErr = none)
    (hscan6 : r6.scan row6 (castValues dest6) = (w6, some e6))
    (r7 : SqlRows Val Err) (cols7 : List String) (e7 : Err)
    (hcol7 : r7.columnsResp = (cols7, some e7))
    (r8 : SqlRows Val Err) (dest8 : List Val) (e8 : Err)
    (hi8 : r8.iterErr = some e8) :
    Driver.Open d sqlOpen ds = .error e0 ∧
    Connection.Prepare c1 q1 = ((none, some e1), []) ∧
    (Connection.Prepare c2 q2).1.2 = some e2 ∧
    (Statement.Exec s3 v3).2 = some (r3, some e3) ∧
    (Statement.Query s4 v4).2 = some ({ rows := rw4 }, some e4) ∧
    Connection.Close c6 = c6.db.closeResp ∧
    Statement.Close s3 = some st3.closeResp ∧
    ResultRows.Close { rows := some r6 } = some r6.closeResp ∧
    (ResultRows.Next { rows := some r6 } dest6).map (fun t => t.1) =
      some (NextOutcome.err e6) ∧
    ResultRows.Columns { rows := some r7 } =
      some (ColumnsOutcome.panicked e7) ∧
    ResultRows.Next { rows := some r8 } dest8 =
      some (NextOutcome.eof, { rows := some r8 }, dest8) := by
  refine ⟨?_, ?_, ?_, ?_, ?_, rfl, ?_, rfl, ?_, ?_, ?_⟩
  · simp [Driver.Open, hopen]
  · simp [Connection.Prepare, hc1, hr1]
  · simp [Connection.Prepare, hc2, hp2]
  · simp [Statement.Exec, hs3, castValues_eq, he3]
  · simp [Statement.Query, hs4, castValues_eq, he4]
  · simp [Statement.Close, hs3]
  · simp [ResultRows.Next, hp6, hi6, hscan6]
  · simp [ResultRows.Columns, hcol7]
  · simp [ResultRows.Next, hi8]

/-- Witness for the amended C5 at concrete fixtures in which every error
source fires. -/
theorem errors_propagated_verbatim_witness :
    Driver.Open hookedDriver sqlOpenFail "dsn" = .error "open failed" ∧
    Connection.Prepare rejectConn "DELETE" = ((none, some "rejected"), []) ∧
    (Connection.Prepare plainFailConn "SELECT 1").1.2 = some "prepare failed" ∧
    (Statement.Exec failingStatement [5]).2 = some (none, some "exec failed") ∧
    (Statement.Query failingStatement [5]).2 =
      some ({ rows := none }, some "query failed") ∧
    Connection.Close plainFailConn = failPrepDB.closeResp ∧
    Statement.Close failingStatement = some failingStmt.closeResp ∧
    ResultRows.Close { rows := some scanErrRows } = some scanErrRows.closeResp ∧
    (ResultRows.Next { rows := some scanErrRows } [0]).map (fun t => t.1) =
      some (NextOutcome.err "scan failed") ∧
    ResultRows.Columns { rows := some colErrRows } =
      some (ColumnsOutcome.panicked "columns failed") ∧
    ResultRows.Next { rows := some iterErrRows } [0] =
      some (NextOutcome.eof, { rows := some iterErrRows }, [0]) :=
  errors_propagated_verbatim hookedDriver sqlOpenFail "dsn" "open failed" rfl
    rejectConn "DELETE" "DELETE" rejectHook "rejected" rfl rfl
    plainFailConn "SELECT 1" "prepare failed" none rfl rfl
    failingStatement failingStmt [5] none "exec failed" rfl rfl
    failingStatement failingStmt [5] none "query failed" rfl rfl
    plainFailConn
    scanErrRows [7] [] [0] [0] "scan failed" rfl rfl rfl
    colErrRows ["x"] "columns failed" rfl
    iterErrRows [0] "connection lost" rfl

/-- C6: at the failing input — a cursor holding one pending row `[42]` whose
scan succeeds, and destination buffer `[0]` — `Next` advances the cursor and
reports success, yet the row data never reaches the destination buffer,
which still holds `[0]`: the scan wrote into the discarded copies made by
`castValues`. -/
theorem next_never_delivers_row_data :
    ResultRows.Next { rows := some testRows } [0] =
      some (NextOutcome.ok,
        { rows := some { testRows with pending := [] } }, [0]) := rfl

end Sqlproxy
